import Mathlib

/-!
Verification of the softlight web-automation agent.

The Python sources are shallowly embedded: pure string manipulation is
translated directly; interactions with the live page, the browser and the
language model are represented by explicit environments (`Except`-valued
fields standing for calls that may raise), and the control flow of each
method is reproduced over those environments.
-/

set_option maxRecDepth 10000

/-! ## String helpers

Python string primitives used by the sources, modelled over `List Char`
(`String` in this development is its list of characters). -/

/-- Python `str.lower()`: lower-case every character. -/
def pyLower (s : String) : String := ⟨s.data.map Char.toLower⟩

/-- `needle` occurs at the start of `hay` (lists of characters). -/
def listStarts : List Char → List Char → Bool
  | [], _ => true
  | _ :: _, [] => false
  | a :: as, b :: bs => a = b && listStarts as bs

/-- Substring containment on character lists: Python's `needle in hay`. -/
def listContains : List Char → List Char → Bool
  | hay, needle =>
    match hay with
    | [] => needle.isEmpty
    | _ :: t => listStarts needle hay || listContains t needle

/-- Python `needle in hay` for strings. -/
def strContains (hay needle : String) : Bool := listContains hay.data needle.data

/-- The whitespace class of Python `str.split()` / regex `\s`. -/
def isPySpace (c : Char) : Bool :=
  c = ' ' || c = Char.ofNat 9 || c = Char.ofNat 10 || c = Char.ofNat 13 ||
  c = Char.ofNat 11 || c = Char.ofNat 12

/-- Helper for `pySplitWs`: accumulates the current word (reversed). -/
def splitWsAux : List Char → List Char → List (List Char)
  | [], acc => if acc.isEmpty then [] else [acc.reverse]
  | c :: cs, acc =>
    if isPySpace c then
      if acc.isEmpty then splitWsAux cs [] else acc.reverse :: splitWsAux cs []
    else splitWsAux cs (c :: acc)

/-- Python `str.split()` with no arguments: split on runs of whitespace,
dropping empty tokens. -/
def pySplitWs (s : String) : List String := (splitWsAux s.data []).map (fun l => ⟨l⟩)

namespace Navigator

/-- The stop-word set of `Navigator._extract_keywords`. -/
def stop_words : List String :=
  ["the", "a", "an", "and", "or", "but", "in", "on", "at", "to", "for", "of",
   "with", "by", "how", "do", "i"]

/-- `Navigator._extract_keywords`: lower-case, whitespace-split, drop stop
words and tokens of length at most 2, then append every adjacent bigram of
the surviving unigrams. -/
def _extract_keywords (description : String) : List String :=
  let words := pySplitWs (pyLower description)
  let keywords := words.filter (fun w => !stop_words.contains w && decide (2 < w.data.length))
  if 1 < keywords.length then
    keywords ++ List.zipWith (fun x y => x ++ " " ++ y) keywords keywords.tail
  else
    keywords

/-! ### Element resolution cascade (`Navigator.find_element_by_description`)

Each of the five strategies is an independent attempt against the live page;
its outcome is either an exception (`Except.error`), no match
(`Except.ok none`), or a match (`Except.ok (some info)`).  The cascade tries
the strategies in the fixed source order and returns the first match. -/

/-- The record a successful strategy returns (the live element handle is
omitted; `selector` and `method` are the fields the caller reads). -/
structure ElemInfo where
  selector : String
  method : String
  deriving DecidableEq

/-- Outcome of one strategy run: it may raise, miss, or hit. -/
abbrev StratOutcome : Type := Except String (Option ElemInfo)

/-- A strategy outcome that produced an element. -/
def isHit : StratOutcome → Bool
  | Except.ok (some _) => true
  | _ => false

/-- The `for strategy in strategies` loop of `find_element_by_description`:
return the first hit, treating exceptions as misses. -/
def tryStrategies : List StratOutcome → Option ElemInfo
  | [] => none
  | o :: rest =>
    match o with
    | Except.ok (some e) => some e
    | _ => tryStrategies rest

/-- Number of strategies the loop actually runs before returning. -/
def strategiesAttempted : List StratOutcome → Nat
  | [] => 0
  | o :: rest =>
    match o with
    | Except.ok (some _) => 1
    | _ => 1 + strategiesAttempted rest

/-- `Navigator.find_element_by_description`: the fixed five-strategy cascade,
in source order text content, aria label, role, placeholder, semantic. -/
def find_element_by_description (text aria role placeholder semantic : StratOutcome) :
    Option ElemInfo :=
  tryStrategies [text, aria, role, placeholder, semantic]

/-- Instrumented variant: how many strategies the same call attempts. -/
def find_element_attempts (text aria role placeholder semantic : StratOutcome) : Nat :=
  strategiesAttempted [text, aria, role, placeholder, semantic]

/-! ### Login-page classification (`Navigator.is_login_page`)

The page is an environment of possibly-raising queries: the current URL, the
two credential-input `query_selector` probes, the visible body text, and the
`form` probe.  `is_login_pageE` is the body of the Python `try`; the method
itself catches any exception and returns `False`. -/

/-- Environment of page reads made by `is_login_page`, each of which can
raise. -/
structure PageModel where
  url : Except String String
  email_input : Except String Bool
  password_input : Except String Bool
  body_text : Except String String
  form_exists : Except String Bool

/-- The URL patterns of `is_login_page`. -/
def login_url_patterns : List String :=
  ["/login", "/signin", "/auth", "/authenticate", "/sign-in", "/log-in", "/account/login"]

/-- The body-text indicators of `is_login_page`. -/
def login_text_indicators : List String :=
  ["log in", "sign in", "login", "signin", "welcome back"]

/-- Body of `Navigator.is_login_page` before its exception handler: the three
checks in source order (URL pattern, credential-input pair, indicator text
plus form). -/
def is_login_pageE (p : PageModel) : Except String Bool := do
  let u ← p.url
  if login_url_patterns.any (fun pat => strContains (pyLower u) pat) then
    return true
  else
    let e ← p.email_input
    let pw ← p.password_input
    if e && pw then
      return true
    else
      let t ← p.body_text
      if login_text_indicators.any (fun ind => strContains (pyLower t) ind) then
        let f ← p.form_exists
        if f then return true else return false
      else
        return false

/-- `Navigator.is_login_page`: any exception is caught and mapped to
`False`. -/
def is_login_page (p : PageModel) : Bool :=
  match is_login_pageE p with
  | Except.ok b => b
  | Except.error _ => false

/-- The URL signal of `is_login_page` as a pure predicate. -/
def urlSignal (u : String) : Bool :=
  login_url_patterns.any (fun pat => strContains (pyLower u) pat)

/-- The body-text signal of `is_login_page` as a pure predicate. -/
def textSignal (t : String) : Bool :=
  login_text_indicators.any (fun ind => strContains (pyLower t) ind)

/-! ### Login wait (`Navigator.wait_for_login`)

The polling loop samples the page every `check_interval` (2 s); the model
advances elapsed time by exactly one interval per iteration (the source may
additionally sleep inside a check, which only reaches the timeout sooner and
never later, since the outer loop re-reads the wall clock).  One sampled
iteration records the current URL, the results of the successive
`is_login_page` calls each completion check makes, the per-indicator probes
of the third check, and whether the iteration's body raised (the source
catches any exception, sleeps one interval, and continues). -/

/-- Outcome of probing one authenticated-user indicator selector:
the probe raised, found nothing, found an element but the login page is
still classified present, or found an element with the login page gone. -/
inductive IndProbe where
  | err
  | notFound
  | foundStill
  | foundGone
  deriving DecidableEq

/-- One polling iteration's sampled page state. -/
structure LoginObs where
  /-- `self.page.url` at this iteration. -/
  current_url : String
  /-- `is_login_page` result inside check 1 (after a URL change). -/
  login1 : Bool
  /-- `is_login_page` result opening check 2. -/
  login2a : Bool
  /-- `is_login_page` result re-confirming check 2 after the settle delay. -/
  login2b : Bool
  /-- the successive indicator probes of check 3, in source order. -/
  indicators : List IndProbe
  /-- the iteration body raised before completing its checks. -/
  raises : Bool

/-- Check 1 of `wait_for_login`: URL changed and no longer a login page. -/
def signal1 (start_url : String) (o : LoginObs) : Bool :=
  decide (o.current_url ≠ start_url) && !o.login1

/-- Check 2: login page gone, re-confirmed after the settle delay. -/
def signal2 (o : LoginObs) : Bool := !o.login2a && !o.login2b

/-- Check 3: some authenticated-user indicator present with the login page
re-confirmed gone. -/
def signal3 (o : LoginObs) : Bool := o.indicators.any (fun i => i = IndProbe.foundGone)

/-- One iteration fires when any of the three completion signals holds. -/
def signalFires (start_url : String) (o : LoginObs) : Bool :=
  signal1 start_url o || signal2 o || signal3 o

/-- The polling interval of `wait_for_login`, in milliseconds. -/
def check_interval_ms : Nat := 2000

/-- The polling loop, by remaining iterations: when no iterations remain the
elapsed time has reached the timeout and the loop breaks with `false`. -/
def loginLoop (start_url : String) (obs : Nat → LoginObs) (n : Nat) : Nat → Bool
  | 0 => false
  | fuel + 1 =>
    let o := obs n
    if o.raises then loginLoop start_url obs (n + 1) fuel
    else if signalFires start_url o then true
    else loginLoop start_url obs (n + 1) fuel

/-- `Navigator.wait_for_login`: iteration `n` runs exactly when
`n * check_interval_ms < timeout`, so the loop runs
`⌈timeout / check_interval_ms⌉` iterations before the elapsed-time check
breaks out with `false`. -/
def wait_for_login (start_url : String) (obs : Nat → LoginObs) (timeout : Nat) : Bool :=
  loginLoop start_url obs 0 ((timeout + (check_interval_ms - 1)) / check_interval_ms)

end Navigator

namespace TaskParser

/-- The workflow record `TaskParser.parse_task` returns. -/
structure Workflow where
  app_name : String
  action : String
  steps : List String
  base_url : String
  deriving DecidableEq

/-- The known-application list of `TaskParser._fallback_parse`. -/
def apps : List String := ["linear", "notion", "asana", "trello", "jira"]

/-- Python `str.capitalize()`: first character upper-cased, rest lowered. -/
def pyCapitalize (s : String) : String :=
  match s.data with
  | [] => ⟨[]⟩
  | c :: t => ⟨c.toUpper :: t.map Char.toLower⟩

/-- The static application → URL table of `TaskParser._fallback_parse`. -/
def base_urls : List (String × String) :=
  [("Linear", "https://linear.app"),
   ("Notion", "https://www.notion.so"),
   ("Asana", "https://app.asana.com")]

/-- `TaskParser._fallback_parse`: deterministic rule-based parse used when
the language-model path fails. -/
def _fallback_parse (question : String) : Workflow :=
  let question_lower := pyLower question
  let app_name :=
    match apps.find? (fun app => strContains question_lower app) with
    | some app => pyCapitalize app
    | none => "Unknown"
  let action :=
    if strContains question_lower "create" && strContains question_lower "project" then
      "create project"
    else if strContains question_lower "filter" then
      "filter"
    else if strContains question_lower "change" || strContains question_lower "update" then
      "update settings"
    else
      "perform task"
  { app_name := app_name
    action := action
    steps :=
      ["Navigate to the application",
       "Find and click the button or menu item to " ++ action,
       "Fill in any required forms",
       "Complete the action"]
    base_url :=
      match (base_urls.find? (fun kv => kv.fst = app_name)) with
      | some kv => kv.snd
      | none => "https://example.com" }

/-- `TaskParser.parse_task`: the primary path (language-model call, fence
stripping and JSON decode) either raises or yields a decoded workflow, which
is returned unvalidated; any exception triggers `_fallback_parse`. -/
def parse_task (primary : Except String Workflow) (question : String) : Workflow :=
  match primary with
  | Except.ok w => w
  | Except.error _ => _fallback_parse question

end TaskParser

namespace AgentB

/-! ### Step dispatch (`AgentB.execute_task`)

The per-step branch of the dispatch loop.  Keyword lists and the branch
structure are those of the source; the runtime outcome of the action each
branch performs (the login wait, `click_element`, `fill_input`, the passive
wait, the generic click) is an environment value, an `Except` standing for
"raised" versus "returned a boolean". -/

/-- The five step intents of the dispatch loop. -/
inductive Intent where
  | login
  | click
  | fill
  | wait
  | generic
  deriving DecidableEq

/-- Login-related keywords (highest priority branch). -/
def loginWords : List String := ["log in", "login", "sign in", "signin", "authenticate"]

/-- Click-branch keywords. -/
def clickWords : List String := ["click", "press", "select", "choose", "open"]

/-- Fill-branch keywords. -/
def fillWords : List String := ["fill", "enter", "type", "input", "write"]

/-- Wait/navigate-branch keywords. -/
def waitWords : List String := ["wait", "navigate", "go"]

/-- `any(word in step_lower for word in ws)`. -/
def containsAny (s : String) (ws : List String) : Bool :=
  ws.any (fun w => strContains s w)

/-- The nested `if/elif` chain classifying a step, on the lower-cased step
text, in source order. -/
def classifyStep (step : String) : Intent :=
  let step_lower := pyLower step
  if containsAny step_lower loginWords then Intent.login
  else if containsAny step_lower clickWords then Intent.click
  else if containsAny step_lower fillWords then Intent.fill
  else if containsAny step_lower waitWords then Intent.wait
  else Intent.generic

/-! `AgentB._extract_value_from_step`: leftmost match of the quoted-value
pattern, else leftmost match of the `value[:\s]+(\w+)` pattern. -/

/-- A quote character of the regex class `["\']`. -/
def isQuoteChar (c : Char) : Bool := c = '"' || c = Char.ofNat 39

/-- A word character of regex `\w`. -/
def isWordChar (c : Char) : Bool := c.isAlphanum || c = Char.ofNat 95

/-- A separator character of the regex class `[:\s]`. -/
def isSepChar (c : Char) : Bool := c = ':' || isPySpace c

/-- Leftmost match of the quoted-value regex: a quote, one or more
non-quote characters, a quote; returns the captured group. -/
def findQuoted : List Char → Option (List Char)
  | [] => none
  | c :: rest =>
    if isQuoteChar c then
      let content := rest.takeWhile (fun d => !isQuoteChar d)
      let rem := rest.dropWhile (fun d => !isQuoteChar d)
      if !content.isEmpty && !rem.isEmpty then some content
      else findQuoted rest
    else findQuoted rest

/-- Leftmost match of the case-insensitive `value[:\s]+(\w+)` regex;
returns the captured word. -/
def findValuePat : List Char → Option (List Char)
  | [] => none
  | c :: rest =>
    if listStarts ("value".data) ((c :: rest).map Char.toLower) then
      let after := (c :: rest).drop 5
      let seps := after.takeWhile isSepChar
      let word := (after.dropWhile isSepChar).takeWhile isWordChar
      if !seps.isEmpty && !word.isEmpty then some word
      else findValuePat rest
    else findValuePat rest

/-- `AgentB._extract_value_from_step`. -/
def _extract_value_from_step (step : String) : Option String :=
  match findQuoted step.data with
  | some content => some ⟨content⟩
  | none =>
    match findValuePat step.data with
    | some w => some ⟨w⟩
    | none => none

/-- Environment for one loop step: the runtime outcome of the action its
branch performs.  `loginOk` is the login wait's boolean (it never raises);
the other branches may raise (`Except.error`) anywhere in their body, which
the per-step handler catches. -/
structure StepEnv where
  loginOk : Bool
  clickRes : Except String Bool
  fillRes : Except String Bool
  waitRes : Except String Bool
  genericRes : Except String Bool

/-- The error entry the per-step exception handler appends. -/
def errEntry (i : Nat) (step msg : String) : String :=
  "Error in step " ++ toString i ++ " (" ++ step ++ "): " ++ msg

/-- The entry the click branch appends when `click_element` returns false. -/
def clickFailEntry (step : String) : String := "Failed to execute step: " ++ step

/-- The entry the login branch appends when the login wait times out. -/
def loginFailEntry (step : String) : String := "Login step may not have completed: " ++ step

/-- Error entries one loop step contributes, following the source branches:
the login branch records a timed-out wait; the click branch records a false
return; the fill branch attempts a fill only when a value was extracted and
records nothing on a false return; the wait branch has no failure check; the
generic branch records nothing on a false return; any exception inside a
branch is caught by the per-step handler and recorded. -/
def stepErrors (i : Nat) (step : String) (e : StepEnv) : List String :=
  match classifyStep step with
  | Intent.login => if e.loginOk then [] else [loginFailEntry step]
  | Intent.click =>
    match e.clickRes with
    | Except.ok true => []
    | Except.ok false => [clickFailEntry step]
    | Except.error msg => [errEntry i step msg]
  | Intent.fill =>
    match _extract_value_from_step step with
    | some _ =>
      match e.fillRes with
      | Except.ok _ => []
      | Except.error msg => [errEntry i step msg]
    | none => []
  | Intent.wait =>
    match e.waitRes with
    | Except.ok _ => []
    | Except.error msg => [errEntry i step msg]
  | Intent.generic =>
    match e.genericRes with
    | Except.ok _ => []
    | Except.error msg => [errEntry i step msg]

/-- The `Except` result of the action the step's branch performs (used to
state which failures the loop records). -/
def branchResult (step : String) (e : StepEnv) : Except String Bool :=
  match classifyStep step with
  | Intent.login => Except.ok e.loginOk
  | Intent.click => e.clickRes
  | Intent.fill =>
    match _extract_value_from_step step with
    | some _ => e.fillRes
    | none => Except.ok true
  | Intent.wait => e.waitRes
  | Intent.generic => e.genericRes

/-- The dispatch loop over the remaining steps, `i` the 1-based display
index of the next step (the loop enumerates from 2). -/
def runSteps (i : Nat) (steps : List String) (env : Nat → StepEnv) : List String :=
  match steps with
  | [] => []
  | s :: rest => stepErrors i s (env i) ++ runSteps (i + 1) rest env

/-- The slice of the result record the error-handling contract concerns. -/
structure TaskResult where
  errors : List String
  success : Bool
  deriving DecidableEq

/-- The entry the task-boundary handler appends on a fatal exception. -/
def fatalEntry (msg : String) : String := "Fatal error executing task: " ++ msg

/-- `AgentB.execute_task` error accumulation: with no fatal exception the
loop processes every step and `success` is set to whether `errors` is empty;
a fatal exception outside the per-step boundary after `k` processed steps
appends its entry and forces `success` to false, returning the incomplete
result. -/
def execute_task (steps : List String) (env : Nat → StepEnv)
    (fatal : Option (Nat × String)) : TaskResult :=
  match fatal with
  | none =>
    let errs := runSteps 2 steps env
    { errors := errs, success := errs.isEmpty }
  | some (k, msg) =>
    { errors := runSteps 2 (steps.take k) env ++ [fatalEntry msg], success := false }

end AgentB

/-! ## Test fixtures (concrete environments used by witnesses) -/

/-- A page whose only login signal is the credential-input pair. -/
def pageEmailPw : Navigator.PageModel :=
  { url := Except.ok "https://x.com/app", email_input := Except.ok true,
    password_input := Except.ok true, body_text := Except.ok "hello",
    form_exists := Except.ok false }

/-- A page with none of the three login signals. -/
def pageBlank : Navigator.PageModel :=
  { url := Except.ok "https://x.com/app", email_input := Except.ok false,
    password_input := Except.ok false, body_text := Except.ok "hello",
    form_exists := Except.ok false }

/-- A page whose URL read raises. -/
def pageRaising : Navigator.PageModel :=
  { url := Except.error "page crashed", email_input := Except.ok true,
    password_input := Except.ok true, body_text := Except.ok "hello",
    form_exists := Except.ok true }

/-- A polling run on which no completion signal ever fires. -/
def obsStuck : Nat → Navigator.LoginObs := fun _ =>
  { current_url := "u", login1 := true, login2a := true, login2b := true,
    indicators := [], raises := false }

/-- A polling run whose first iteration fires signal 1 (URL changed, login
page gone). -/
def obsDone : Nat → Navigator.LoginObs := fun _ =>
  { current_url := "v", login1 := false, login2a := true, login2b := true,
    indicators := [], raises := false }

/-- A step environment where every interaction reports failure by returning
false (no exception anywhere). -/
def fillFailEnv : AgentB.StepEnv :=
  { loginOk := true, clickRes := Except.ok false, fillRes := Except.ok false,
    waitRes := Except.ok true, genericRes := Except.ok false }

/-- A step environment whose click action raises. -/
def clickRaiseEnv : AgentB.StepEnv :=
  { loginOk := true, clickRes := Except.error "element detached",
    fillRes := Except.ok true, waitRes := Except.ok true,
    genericRes := Except.ok true }

/-- A fill step carrying a quoted value. -/
def fillStepText : String := "enter \"hello\" into the name field"

/-- A decoded language-model payload whose steps list is empty. -/
def emptyStepsWorkflow : TaskParser.Workflow :=
  { app_name := "Linear", action := "create project", steps := [],
    base_url := "https://linear.app" }

example : Navigator._extract_keywords "ab" = [] := by decide
example : Navigator._extract_keywords "project" = ["project"] := by decide
example : Navigator._extract_keywords "Create Project button" =
    ["create", "project", "button", "create project", "project button"] := by decide

/-! ## Theorems -/

/-! ### C1: the element-resolution cascade -/

/-- A non-hit outcome (miss or exception) makes the loop fall through. -/
theorem tryStrategies_miss (o : Navigator.StratOutcome) (rest : List Navigator.StratOutcome)
    (h : Navigator.isHit o = false) :
    Navigator.tryStrategies (o :: rest) = Navigator.tryStrategies rest := by
  cases o with
  | error e => rfl
  | ok v =>
    cases v with
    | none => rfl
    | some e => simp [Navigator.isHit] at h

/-- A non-hit outcome costs one attempt and the loop goes on counting. -/
theorem strategiesAttempted_miss (o : Navigator.StratOutcome)
    (rest : List Navigator.StratOutcome) (h : Navigator.isHit o = false) :
    Navigator.strategiesAttempted (o :: rest) = 1 + Navigator.strategiesAttempted rest := by
  cases o with
  | error e => rfl
  | ok v =>
    cases v with
    | none => rfl
    | some e => simp [Navigator.isHit] at h

/-- C1: `find_element_by_description` tries the five strategies in the fixed
order text content, aria label, role, placeholder, semantic; the first hit
is returned and no later strategy is attempted (the attempt count stops at
the hit's position); an outcome that raises is treated exactly as a miss;
and when every strategy misses or raises the call returns `none` after
attempting all five strategies, without raising. -/
theorem find_element_cascade_spec (t a r p s : Navigator.StratOutcome) :
    (Navigator.isHit t = false → Navigator.isHit a = false → Navigator.isHit r = false →
      Navigator.isHit p = false → Navigator.isHit s = false →
      Navigator.find_element_by_description t a r p s = none ∧
      Navigator.find_element_attempts t a r p s = 5)
    ∧ (∀ e, t = Except.ok (some e) →
        Navigator.find_element_by_description t a r p s = some e ∧
        Navigator.find_element_attempts t a r p s = 1)
    ∧ (∀ e, Navigator.isHit t = false → a = Except.ok (some e) →
        Navigator.find_element_by_description t a r p s = some e ∧
        Navigator.find_element_attempts t a r p s = 2)
    ∧ (∀ e, Navigator.isHit t = false → Navigator.isHit a = false →
        r = Except.ok (some e) →
        Navigator.find_element_by_description t a r p s = some e ∧
        Navigator.find_element_attempts t a r p s = 3)
    ∧ (∀ e, Navigator.isHit t = false → Navigator.isHit a = false →
        Navigator.isHit r = false → p = Except.ok (some e) →
        Navigator.find_element_by_description t a r p s = some e ∧
        Navigator.find_element_attempts t a r p s = 4)
    ∧ (∀ e, Navigator.isHit t = false → Navigator.isHit a = false →
        Navigator.isHit r = false → Navigator.isHit p = false →
        s = Except.ok (some e) →
        Navigator.find_element_by_description t a r p s = some e ∧
        Navigator.find_element_attempts t a r p s = 5)
    ∧ (∀ msg, Navigator.find_element_by_description (Except.error msg) a r p s
        = Navigator.find_element_by_description (Except.ok none) a r p s) := by
  unfold Navigator.find_element_by_description Navigator.find_element_attempts
  refine ⟨?_, ?_, ?_, ?_, ?_, ?_, ?_⟩
  · intro ht ha hr hp hs
    constructor
    · rw [tryStrategies_miss t _ ht, tryStrategies_miss a _ ha, tryStrategies_miss r _ hr,
        tryStrategies_miss p _ hp, tryStrategies_miss s _ hs]
      rfl
    · rw [strategiesAttempted_miss t _ ht, strategiesAttempted_miss a _ ha,
        strategiesAttempted_miss r _ hr, strategiesAttempted_miss p _ hp,
        strategiesAttempted_miss s _ hs]
      rfl
  · intro e he; subst he; exact ⟨rfl, rfl⟩
  · intro e ht he; subst he
    rw [tryStrategies_miss t _ ht, strategiesAttempted_miss t _ ht]
    exact ⟨rfl, rfl⟩
  · intro e ht ha he; subst he
    rw [tryStrategies_miss t _ ht, tryStrategies_miss a _ ha,
      strategiesAttempted_miss t _ ht, strategiesAttempted_miss a _ ha]
    exact ⟨rfl, rfl⟩
  · intro e ht ha hr he; subst he
    rw [tryStrategies_miss t _ ht, tryStrategies_miss a _ ha, tryStrategies_miss r _ hr,
      strategiesAttempted_miss t _ ht, strategiesAttempted_miss a _ ha,
      strategiesAttempted_miss r _ hr]
    exact ⟨rfl, rfl⟩
  · intro e ht ha hr hp he; subst he
    rw [tryStrategies_miss t _ ht, tryStrategies_miss a _ ha, tryStrategies_miss r _ hr,
      tryStrategies_miss p _ hp, strategiesAttempted_miss t _ ht,
      strategiesAttempted_miss a _ ha, strategiesAttempted_miss r _ hr,
      strategiesAttempted_miss p _ hp]
    exact ⟨rfl, rfl⟩
  · intro msg; rfl

/-- C1 witness: with every strategy raising, the cascade attempts all five
and returns `none`; with the text strategy raising and the aria strategy
hitting, the aria match is returned after exactly two attempts. -/
theorem find_element_cascade_witness :
    (Navigator.find_element_by_description (Except.error "t") (Except.error "a")
        (Except.error "r") (Except.error "p") (Except.error "s") = none ∧
      Navigator.find_element_attempts (Except.error "t") (Except.error "a")
        (Except.error "r") (Except.error "p") (Except.error "s") = 5)
    ∧ (Navigator.find_element_by_description (Except.error "t")
        (Except.ok (some { selector := "aria-label-save", method := "aria_label" }))
        (Except.ok none) (Except.ok none) (Except.ok none)
        = some { selector := "aria-label-save", method := "aria_label" } ∧
      Navigator.find_element_attempts (Except.error "t")
        (Except.ok (some { selector := "aria-label-save", method := "aria_label" }))
        (Except.ok none) (Except.ok none) (Except.ok none) = 2) :=
  ⟨(find_element_cascade_spec (Except.error "t") (Except.error "a") (Except.error "r")
      (Except.error "p") (Except.error "s")).1 rfl rfl rfl rfl rfl,
    (find_element_cascade_spec (Except.error "t")
      (Except.ok (some { selector := "aria-label-save", method := "aria_label" }))
      (Except.ok none) (Except.ok none) (Except.ok none)).2.2.1
      { selector := "aria-label-save", method := "aria_label" } rfl rfl⟩

/-! ### C2 and C10: the login-page classifier -/

/-- C2: when the page reads succeed, `is_login_page` is true exactly when at
least one of the three signals holds — the URL contains a known login-path
pattern, or an email/username-like input and a password-like input are both
present, or the visible body text contains a login-indicative phrase and a
form element is present. -/
theorem is_login_page_signals (p : Navigator.PageModel) (u t : String) (e pw f : Bool)
    (hu : p.url = Except.ok u) (he : p.email_input = Except.ok e)
    (hp : p.password_input = Except.ok pw) (ht : p.body_text = Except.ok t)
    (hf : p.form_exists = Except.ok f) :
    Navigator.is_login_page p =
      (Navigator.urlSignal u || (e && pw) || (Navigator.textSignal t && f)) := by
  simp only [Navigator.is_login_page, Navigator.is_login_pageE, hu, he, hp, ht, hf,
    Navigator.urlSignal, Navigator.textSignal, bind, Except.bind, pure, Except.pure]
  by_cases h1 : (Navigator.login_url_patterns.any (fun pat => strContains (pyLower u) pat)) = true
  · simp [h1]
  · by_cases h2 : (Navigator.login_text_indicators.any (fun ind => strContains (pyLower t) ind)) = true
    · cases e <;> cases pw <;> cases f <;> simp [h1, h2]
    · cases e <;> cases pw <;> cases f <;> simp [h1, h2]

/-- C2 witness: a page whose only signal is the credential-input pair
classifies as a login page, and a page with none of the three signals does
not. -/
theorem is_login_page_signals_witness :
    Navigator.is_login_page pageEmailPw = true ∧ Navigator.is_login_page pageBlank = false :=
  ⟨(is_login_page_signals pageEmailPw "https://x.com/app" "hello" true true false
      rfl rfl rfl rfl rfl).trans (by decide),
   (is_login_page_signals pageBlank "https://x.com/app" "hello" false false false
      rfl rfl rfl rfl rfl).trans (by decide)⟩

/-- C10: whenever the body of `is_login_page` raises while evaluating any of
its page checks, the exception is caught and the call returns `false`
instead of propagating (its return type already guarantees every call
yields a boolean). -/
theorem is_login_page_never_raises (p : Navigator.PageModel) (msg : String)
    (h : Navigator.is_login_pageE p = Except.error msg) :
    Navigator.is_login_page p = false := by
  unfold Navigator.is_login_page
  rw [h]

/-- C10 witness: a page whose URL read raises classifies as not a login
page. -/
theorem is_login_page_never_raises_witness :
    Navigator.is_login_page pageRaising = false :=
  is_login_page_never_raises pageRaising "page crashed" rfl

/-! ### C3 and C6: the workflow decomposer -/

/-- C3 counterexample: a successful language-model call whose decoded
payload has an empty steps list is returned unvalidated, so `parse_task`
yields a workflow with no steps — the non-emptiness invariant fails on the
successful path. -/
theorem parse_task_empty_steps_cex :
    (TaskParser.parse_task (Except.ok emptyStepsWorkflow)
      "How do I create a project in Linear?").steps = [] := rfl

/-- C3 amended: whenever the primary language-model path raises (call
failure or undecodable payload), `parse_task` returns the deterministic
fallback workflow, whose steps list always has exactly four entries and is
therefore non-empty; a successful call's decoded payload is returned as-is,
so the non-emptiness guarantee holds only on the fallback path. -/
theorem parse_task_fallback_nonempty (err question : String) :
    TaskParser.parse_task (Except.error err) question = TaskParser._fallback_parse question
    ∧ (TaskParser.parse_task (Except.error err) question).steps.length = 4 :=
  ⟨rfl, rfl⟩

/-- C6: with the language-model client unreachable, parsing
"How do I create a project in Linear?" falls back to the rule-based parse,
whose result has app_name "Linear", action "create project", base_url
"https://linear.app" and a (four-element, hence non-empty) steps list. -/
theorem parse_task_linear_fallback (err : String) :
    TaskParser.parse_task (Except.error err) "How do I create a project in Linear?" =
      { app_name := "Linear", action := "create project",
        steps := ["Navigate to the application",
          "Find and click the button or menu item to create project",
          "Fill in any required forms", "Complete the action"],
        base_url := "https://linear.app" } := rfl

/-! ### C5: the login wait -/

/-- If no non-raising iteration ever fires a completion signal, the polling
loop runs out of iterations and returns false. -/
theorem loginLoop_no_signal (su : String) (obs : Nat → Navigator.LoginObs)
    (h : ∀ k, (obs k).raises = false → Navigator.signalFires su (obs k) = false) :
    ∀ (fuel n : Nat), Navigator.loginLoop su obs n fuel = false := by
  intro fuel
  induction fuel with
  | zero => intro n; rfl
  | succ m ih =>
    intro n
    unfold Navigator.loginLoop
    by_cases hr : (obs n).raises = true
    · simp [hr, ih]
    · have hs := h n (by simpa using hr)
      simp [hr, hs, ih]

/-- If a reachable iteration does not raise and fires a signal, the polling
loop returns true. -/
theorem loginLoop_signal (su : String) (obs : Nat → Navigator.LoginObs) :
    ∀ (fuel n j : Nat), j < fuel → (obs (n + j)).raises = false →
      Navigator.signalFires su (obs (n + j)) = true →
      Navigator.loginLoop su obs n fuel = true := by
  intro fuel
  induction fuel with
  | zero => intro n j hj; omega
  | succ m ih =>
    intro n j hj hr hf
    unfold Navigator.loginLoop
    by_cases hrn : (obs n).raises = true
    · cases j with
      | zero =>
        rw [Nat.add_zero] at hr
        rw [hr] at hrn
        exact absurd hrn (by simp)
      | succ j' =>
        have := ih (n + 1) j' (by omega)
          (by rw [show n + 1 + j' = n + (j' + 1) by omega]; exact hr)
          (by rw [show n + 1 + j' = n + (j' + 1) by omega]; exact hf)
        simp [hrn, this]
    · by_cases hs : Navigator.signalFires su (obs n) = true
      · simp [hrn, hs]
      · cases j with
        | zero =>
          rw [Nat.add_zero] at hf
          exact absurd hf (by simpa using hs)
        | succ j' =>
          have := ih (n + 1) j' (by omega)
            (by rw [show n + 1 + j' = n + (j' + 1) by omega]; exact hr)
            (by rw [show n + 1 + j' = n + (j' + 1) by omega]; exact hf)
          simp [hrn, hs, this]

/-- C5: for every timeout, if no non-raising polling iteration ever fires
one of the three login-completion signals, `wait_for_login` terminates once
the elapsed time reaches the timeout and returns false without raising
(iterations that raise are caught and merely consume time); and if some
iteration reached before the timeout elapses fires any one signal, it
returns true. -/
theorem wait_for_login_spec (su : String) (obs : Nat → Navigator.LoginObs) (timeout : Nat) :
    ((∀ n, (obs n).raises = false → Navigator.signalFires su (obs n) = false) →
      Navigator.wait_for_login su obs timeout = false)
    ∧ (∀ n, Navigator.check_interval_ms * n < timeout → (obs n).raises = false →
        Navigator.signalFires su (obs n) = true →
        Navigator.wait_for_login su obs timeout = true) := by
  constructor
  · intro h
    exact loginLoop_no_signal su obs h _ 0
  · intro n hlt hr hf
    unfold Navigator.wait_for_login
    have hn : n < (timeout + (Navigator.check_interval_ms - 1)) / Navigator.check_interval_ms := by
      have h1 : n + 1 ≤ (timeout + (Navigator.check_interval_ms - 1)) /
          Navigator.check_interval_ms := by
        rw [Nat.le_div_iff_mul_le (by decide : 0 < Navigator.check_interval_ms)]
        unfold Navigator.check_interval_ms at hlt ⊢
        omega
      omega
    exact loginLoop_signal su obs _ 0 n hn (by simpa using hr) (by simpa using hf)

/-- C5 witness: on a run where no signal ever fires the wait times out with
false after a 4-second timeout, and on a run whose first iteration fires
signal 1 it returns true. -/
theorem wait_for_login_spec_witness :
    Navigator.wait_for_login "u" obsStuck 4000 = false ∧
    Navigator.wait_for_login "u" obsDone 4000 = true :=
  ⟨(wait_for_login_spec "u" obsStuck 4000).1 (fun _ _ => rfl),
   (wait_for_login_spec "u" obsDone 4000).2 0 (by decide) rfl rfl⟩

/-! ### C7: step intent classification -/

/-- C7: every step is classified into exactly one of the five intents by
keyword presence on its lower-cased text, in the fixed priority order login,
click, fill, wait, generic — the intent is login exactly when a login word
occurs, click exactly when no login word but a click word occurs, and so on
down to generic when no keyword of any class occurs; in particular
"log in and click continue", which contains both a login word and a click
word, is classified as login. -/
theorem classifyStep_priority (s : String) :
    (AgentB.classifyStep s = AgentB.Intent.login ↔
      AgentB.containsAny (pyLower s) AgentB.loginWords = true)
    ∧ (AgentB.classifyStep s = AgentB.Intent.click ↔
      (AgentB.containsAny (pyLower s) AgentB.loginWords = false ∧
       AgentB.containsAny (pyLower s) AgentB.clickWords = true))
    ∧ (AgentB.classifyStep s = AgentB.Intent.fill ↔
      (AgentB.containsAny (pyLower s) AgentB.loginWords = false ∧
       AgentB.containsAny (pyLower s) AgentB.clickWords = false ∧
       AgentB.containsAny (pyLower s) AgentB.fillWords = true))
    ∧ (AgentB.classifyStep s = AgentB.Intent.wait ↔
      (AgentB.containsAny (pyLower s) AgentB.loginWords = false ∧
       AgentB.containsAny (pyLower s) AgentB.clickWords = false ∧
       AgentB.containsAny (pyLower s) AgentB.fillWords = false ∧
       AgentB.containsAny (pyLower s) AgentB.waitWords = true))
    ∧ (AgentB.classifyStep s = AgentB.Intent.generic ↔
      (AgentB.containsAny (pyLower s) AgentB.loginWords = false ∧
       AgentB.containsAny (pyLower s) AgentB.clickWords = false ∧
       AgentB.containsAny (pyLower s) AgentB.fillWords = false ∧
       AgentB.containsAny (pyLower s) AgentB.waitWords = false))
    ∧ AgentB.classifyStep "log in and click continue" = AgentB.Intent.login := by
  refine ⟨?_, ?_, ?_, ?_, ?_, by decide⟩ <;>
    (unfold AgentB.classifyStep
     by_cases h1 : AgentB.containsAny (pyLower s) AgentB.loginWords = true <;>
       by_cases h2 : AgentB.containsAny (pyLower s) AgentB.clickWords = true <;>
       by_cases h3 : AgentB.containsAny (pyLower s) AgentB.fillWords = true <;>
       by_cases h4 : AgentB.containsAny (pyLower s) AgentB.waitWords = true <;>
       simp [h1, h2, h3, h4])

/-! ### C4 and C8: error accumulation in the dispatch loop -/

/-- The dispatch loop processes a concatenation of step lists in order,
concatenating their error contributions. -/
theorem runSteps_append (env : Nat → AgentB.StepEnv) :
    ∀ (l1 l2 : List String) (i : Nat),
      AgentB.runSteps i (l1 ++ l2) env =
        AgentB.runSteps i l1 env ++ AgentB.runSteps (i + l1.length) l2 env := by
  intro l1
  induction l1 with
  | nil => intro l2 i; simp [AgentB.runSteps]
  | cons s rest ih =>
    intro l2 i
    show AgentB.stepErrors i s (env i) ++ AgentB.runSteps (i + 1) (rest ++ l2) env =
      (AgentB.stepErrors i s (env i) ++ AgentB.runSteps (i + 1) rest env) ++
        AgentB.runSteps (i + (rest.length + 1)) l2 env
    rw [ih l2 (i + 1), List.append_assoc,
      show i + 1 + rest.length = i + (rest.length + 1) from by omega]

/-- C4 amended: execution always continues past a failing step — the errors
of a task are exactly the concatenation of each step's contribution, with
the steps after a failing step still processed; every step whose branch
raises appends its exception entry; a login step whose wait times out and a
click step whose `click_element` returns false each append an entry; but a
fill step whose `fill_input` returns false (resolution or interaction
failure without an exception) and a generic step whose click attempt
returns false append nothing. -/
theorem step_failure_recording (pre post : List String) (s : String) (env : Nat → AgentB.StepEnv) :
    ((AgentB.execute_task (pre ++ s :: post) env none).errors
      = AgentB.runSteps 2 pre env
        ++ AgentB.stepErrors (2 + pre.length) s (env (2 + pre.length))
        ++ AgentB.runSteps (2 + pre.length + 1) post env)
    ∧ (∀ i msg, AgentB.branchResult s (env i) = Except.error msg →
        AgentB.stepErrors i s (env i) = [AgentB.errEntry i s msg])
    ∧ (∀ i, AgentB.classifyStep s = AgentB.Intent.login → (env i).loginOk = false →
        AgentB.stepErrors i s (env i) = [AgentB.loginFailEntry s])
    ∧ (∀ i, AgentB.classifyStep s = AgentB.Intent.click → (env i).clickRes = Except.ok false →
        AgentB.stepErrors i s (env i) = [AgentB.clickFailEntry s])
    ∧ (∀ i v, AgentB.classifyStep s = AgentB.Intent.fill →
        AgentB._extract_value_from_step s = some v → (env i).fillRes = Except.ok false →
        AgentB.stepErrors i s (env i) = [])
    ∧ (∀ i, AgentB.classifyStep s = AgentB.Intent.generic →
        (env i).genericRes = Except.ok false →
        AgentB.stepErrors i s (env i) = []) := by
  refine ⟨?_, ?_, ?_, ?_, ?_, ?_⟩
  · show (AgentB.runSteps 2 (pre ++ s :: post) env) = _
    rw [runSteps_append env pre (s :: post) 2]
    show AgentB.runSteps 2 pre env ++
      (AgentB.stepErrors (2 + pre.length) s (env (2 + pre.length)) ++
        AgentB.runSteps (2 + pre.length + 1) post env) = _
    rw [List.append_assoc]
  · intro i msg h
    cases hc : AgentB.classifyStep s
    all_goals simp only [AgentB.branchResult, AgentB.stepErrors, hc] at h ⊢
    · simp at h
    · simp [h]
    · cases hv : AgentB._extract_value_from_step s
      · simp only [hv] at h; simp at h
      · simp only [hv] at h ⊢; simp [h]
    · simp [h]
    · simp [h]
  · intro i hc hl
    simp [AgentB.stepErrors, hc, hl]
  · intro i hc hr
    simp [AgentB.stepErrors, hc, hr]
  · intro i v hc hv hr
    simp [AgentB.stepErrors, hc, hv, hr]
  · intro i hc hr
    simp [AgentB.stepErrors, hc, hr]

/-- C4 counterexample: a fill step carrying the quoted value "hello" whose
`fill_input` call fails by returning false leaves no record in the errors
list — the task even ends with `success = true` — refuting the claim that
every failed fill step is recorded. -/
theorem fill_failure_unrecorded_cex :
    AgentB.classifyStep fillStepText = AgentB.Intent.fill
    ∧ AgentB._extract_value_from_step fillStepText = some "hello"
    ∧ AgentB.execute_task [fillStepText] (fun _ => fillFailEnv) none =
        { errors := [], success := true } :=
  ⟨by decide, by decide, by decide⟩

/-- C4 witness: a single click step whose click raises "element detached"
yields exactly its per-step exception entry. -/
theorem step_failure_recording_witness :
    (AgentB.execute_task ["click the save button"] (fun _ => clickRaiseEnv) none).errors
      = [AgentB.errEntry 2 "click the save button" "element detached"] := by
  have h := step_failure_recording [] [] "click the save button" (fun _ => clickRaiseEnv)
  have h2 := h.2.1 2 "element detached" rfl
  simpa [AgentB.runSteps, h2] using h.1

/-- C8: for every task execution — including one ended by a fatal exception
outside the per-step boundary, which still returns the incomplete result — the
returned record satisfies `success = errors.isEmpty`: success is true
exactly when no errors were accumulated. -/
theorem execute_task_success_iff (steps : List String) (env : Nat → AgentB.StepEnv)
    (fatal : Option (Nat × String)) :
    (AgentB.execute_task steps env fatal).success =
      (AgentB.execute_task steps env fatal).errors.isEmpty := by
  cases fatal with
  | none => rfl
  | some km =>
    obtain ⟨k, msg⟩ := km
    cases h : AgentB.runSteps 2 (steps.take k) env <;>
      simp [AgentB.execute_task, h]

/-! ### C9: keyword extraction on a single word -/

/-- Splitting a non-empty run of non-whitespace characters yields exactly
that run. -/
theorem splitWsAux_no_space : ∀ (l acc : List Char),
    (∀ c ∈ l, isPySpace c = false) → (acc.reverse ++ l) ≠ [] →
    splitWsAux l acc = [acc.reverse ++ l] := by
  intro l
  induction l with
  | nil =>
    intro acc h hne
    have hacc : acc.isEmpty = false := by
      cases acc with
      | nil => simp at hne
      | cons a as => rfl
    unfold splitWsAux
    simp [hacc]
  | cons c cs ih =>
    intro acc h hne
    have hc : isPySpace c = false := h c (by simp)
    have hrec := ih (c :: acc) (fun d hd => h d (by simp [hd])) (by simp)
    unfold splitWsAux
    rw [hc]
    simp only [Bool.false_eq_true, if_false]
    rw [hrec]
    simp

/-- C9 amended: for every one-word input — one whose lower-cased form
contains no whitespace — that survives the filter (its lower-cased form is
not in the stop-word set and is longer than 2 characters),
`_extract_keywords` returns exactly the singleton of the lower-cased word.
In particular extraction is idempotent on an already-extracted single
keyword, which is already lower-case and longer than 2 characters; but an
input that is merely "not a stop word" is not enough: short tokens are
dropped and upper-case letters are lowered. -/
theorem extract_keywords_singleton (w : String)
    (hws : ∀ c ∈ (pyLower w).data, isPySpace c = false)
    (hstop : Navigator.stop_words.contains (pyLower w) = false)
    (hlen : 2 < (pyLower w).data.length) :
    Navigator._extract_keywords w = [pyLower w] := by
  have hne : (pyLower w).data ≠ [] := by
    intro h; rw [h] at hlen; simp at hlen
  have hsplit : pySplitWs (pyLower w) = [pyLower w] := by
    unfold pySplitWs
    rw [splitWsAux_no_space (pyLower w).data [] hws (by simpa using hne)]
    simp
  have hmem : ¬ pyLower w ∈ Navigator.stop_words := by simpa using hstop
  have hlen2 : 2 < (pyLower w).length := hlen
  simp only [Navigator._extract_keywords]
  rw [hsplit]
  simp [List.filter, hmem, hlen2]

/-- C9 counterexample: "ab" is a one-word input not in the stop-word set,
yet `_extract_keywords` drops it (its length is not greater than 2) and
returns the empty list rather than the word itself. -/
theorem extract_keywords_short_cex :
    Navigator.stop_words.contains "ab" = false
    ∧ Navigator._extract_keywords "ab" = []
    ∧ (Navigator._extract_keywords "ab" == ["ab"]) = false :=
  ⟨by decide, by decide, by decide⟩

/-- C9 witness: the already-extracted keyword "project" (lower-case, length
7, not a stop word) is returned unchanged as the sole candidate term. -/
theorem extract_keywords_singleton_witness :
    Navigator._extract_keywords "project" = [pyLower "project"] :=
  extract_keywords_singleton "project" (by decide) (by decide) (by decide)
